import Mathlib

/-!
Shallow embedding of the capability-resolution logic of the appium-mcp
repository (src/src/tools/session/create-session.ts, and the older revision
kept in the repository, src/unnamed/part_000).

Capability objects are JavaScript objects with string keys; we model them as
functions from keys to optional values.  Object spread `{...a, ...b}` lets the
keys of `b` override those of `a`.  Values occurring in the code are strings,
booleans and integers.  The device-selection state (select-device.js, not part
of the analysed sources) is modelled as an explicit record threaded through the
builders, following the spec.
-/

/-- A JavaScript capability value: string, boolean or integer. -/
inductive CapValue where
  | str (s : String)
  | bool (b : Bool)
  | int (n : Int)
deriving DecidableEq

/-- A capability object: a map from string keys to optional values. -/
def Caps : Type := String → Option CapValue

/-- The empty capability object `{}` (also the contribution of spreading
`undefined` or any falsy value). -/
def Caps.empty : Caps := fun _ => none

/-- JavaScript object spread `{...a, ...b}`: keys of `b` override keys of `a`. -/
def Caps.union (a b : Caps) : Caps := fun k =>
  match b k with
  | some v => some v
  | none => a k

/-- A one-key capability object. -/
def singletonCap (key : String) (v : CapValue) : Caps := fun k =>
  if k = key then some v else none

/-- The conditional spread `...(b && obj)`: contributes `obj` when `b` is
truthy and nothing otherwise. -/
def condCaps (b : Bool) (c : Caps) : Caps := fun k =>
  if b then c k else none

/-- Spread of `...(s && {key: s})` for an optional string `s`: contributes the
one-key object when `s` is present, nothing when it is absent. -/
def optionalStrCap (key : String) (v : Option String) : Caps := fun k =>
  match v with
  | some s => if k = key then some (CapValue.str s) else none
  | none => none

/-- JavaScript truthiness of a `string | undefined` value: `undefined` and the
empty string are falsy. -/
def strTruthy : Option String → Bool
  | some s => !(s == "")
  | none => false

/-- Keep an optional string only when it is truthy (present and non-empty). -/
def truthyStr : Option String → Option String
  | some s => if s = "" then none else some s
  | none => none

/-- iOS device type, as reported by the device-selection subsystem
(`simulator` or `real`; absence is modelled by `Option`). -/
inductive DeviceType where
  | simulator
  | real
deriving DecidableEq

/-- Device info returned by `getSelectedDeviceInfo()`: a name and a
platform-version string, each possibly absent. -/
structure DeviceInfo where
  name : Option String
  platform : Option String
deriving DecidableEq

/-- Modelled from the spec: the device-selection state owned by
select-device.js (not among the analysed sources) — a selected device
identifier, a selected device type, and selected device info, read through
`getSelectedDevice`, `getSelectedDeviceType` and `getSelectedDeviceInfo`;
`clearSelectedDevice` clears the selected device identifier. -/
structure DeviceSelection where
  device : Option String
  deviceType : Option DeviceType
  info : Option DeviceInfo
deriving DecidableEq

/-- The device-selection state with nothing selected. -/
def emptySelection : DeviceSelection := ⟨none, none, none⟩

/-- `filterEmptyCapabilities`: remove every key whose value is the empty
string (the source deletes keys whose value `=== ''`). -/
def filterEmptyCapabilities (c : Caps) : Caps := fun k =>
  match c k with
  | some (CapValue.str s) => if s = "" then none else some (CapValue.str s)
  | some (CapValue.bool b) => some (CapValue.bool b)
  | some (CapValue.int n) => some (CapValue.int n)
  | none => none

/-- The fixed Android default capabilities of `buildAndroidCapabilities`. -/
def defaultAndroidCaps : Caps := fun k =>
  if k = "platformName" then some (CapValue.str "Android")
  else if k = "appium:automationName" then some (CapValue.str "UiAutomator2")
  else if k = "appium:deviceName" then some (CapValue.str "Android Device")
  else none

/-- The `capabilities` object literal of `buildAndroidCapabilities`:
`{...defaultCaps, ...configCaps, ...(selectedDeviceUdid && {'appium:udid': selectedDeviceUdid}), ...customCaps}`. -/
def mergedAndroidCaps (configCaps customCaps : Caps)
    (selectedDeviceUdid : Option String) : Caps :=
  Caps.union
    (Caps.union
      (Caps.union defaultAndroidCaps configCaps)
      (optionalStrCap "appium:udid" (truthyStr selectedDeviceUdid)))
    customCaps

/-- `buildAndroidCapabilities` (current revision): merge defaults, config
capabilities, the selected device identifier (skipped for remote targets) and
custom capabilities; clear the selected identifier when it was consumed; strip
empty-string values.  The device-selection state is threaded explicitly, so
the function returns the resulting capabilities together with the state left
behind. -/
def buildAndroidCapabilities (configCaps customCaps : Caps) (isRemoteServer : Bool)
    (st : DeviceSelection) : Caps × DeviceSelection :=
  let selectedDeviceUdid : Option String :=
    if isRemoteServer then none else st.device
  let capabilities := mergedAndroidCaps configCaps customCaps selectedDeviceUdid
  let st2 :=
    if strTruthy selectedDeviceUdid then { st with device := none } else st
  (filterEmptyCapabilities capabilities, st2)

/-- The word the validation error message uses for the device type
(`deviceType === 'simulator' ? 'simulators' : 'devices'`). -/
def deviceWord : DeviceType → String
  | DeviceType.simulator => "simulators"
  | DeviceType.real => "devices"

/-- The ambiguous-selection error message of `validateIOSDeviceSelection`,
naming the device count. -/
def ambiguousSelectionMessage (t : DeviceType) (n : Nat) : String :=
  "Multiple iOS " ++ deviceWord t ++ " found (" ++ Nat.repr n ++
    "). Please use the select_device tool to choose which device to use before creating a session."

/-- `validateIOSDeviceSelection`: when a device type is given, query the
device manager for the devices of that type (modelled by the count oracle
`devicesByType`); fail when more than one exists and no device is selected. -/
def validateIOSDeviceSelection (deviceType : Option DeviceType)
    (devicesByType : DeviceType → Nat) (selectedDevice : Option String) :
    Except String Unit :=
  match deviceType with
  | none => Except.ok ()
  | some t =>
    if devicesByType t > 1 then
      if strTruthy selectedDevice then Except.ok ()
      else Except.error (ambiguousSelectionMessage t (devicesByType t))
    else Except.ok ()

/-- The fixed iOS default capabilities, parametrised by the resolved device
name (`selectedDeviceInfo?.name || 'iPhone Simulator'`). -/
def defaultIOSCaps (deviceName : String) : Caps := fun k =>
  if k = "platformName" then some (CapValue.str "iOS")
  else if k = "appium:automationName" then some (CapValue.str "XCUITest")
  else if k = "appium:deviceName" then some (CapValue.str deviceName)
  else none

/-- The fixed simulator-stability capabilities added for non-remote simulator
sessions. -/
def simStabilityCaps : Caps := fun k =>
  if k = "appium:usePrebuiltWDA" then some (CapValue.bool true)
  else if k = "appium:wdaStartupRetries" then some (CapValue.int 4)
  else if k = "appium:wdaStartupRetryInterval" then some (CapValue.int 20000)
  else none

/-- `selectedDeviceInfo?.name || 'iPhone Simulator'`: the resolved iOS device
name (the fallback also applies to an empty-string name, which is falsy). -/
def resolvedIOSDeviceName : Option DeviceInfo → String
  | some i =>
    match i.name with
    | some n => if n = "" then "iPhone Simulator" else n
    | none => "iPhone Simulator"
  | none => "iPhone Simulator"

/-- JavaScript `String.prototype.trim()`: remove leading and trailing
whitespace, written over the character list so it evaluates in the kernel. -/
def jsTrim (s : String) : String :=
  String.mk (((s.data.dropWhile Char.isWhitespace).reverse.dropWhile
    Char.isWhitespace).reverse)

/-- The auto-detected platform version:
`info?.platform && info.platform.trim() !== '' ? info.platform : undefined`. -/
def detectedPlatformVersion : Option DeviceInfo → Option String
  | some i =>
    match i.platform with
    | some p => if p = "" then none else if jsTrim p = "" then none else some p
    | none => none
  | none => none

/-- The `capabilities` object literal of `buildIOSCapabilities`: defaults
(with the given resolved device name), the auto-detected platform version,
config capabilities, the selected device identifier, the simulator-stability
flags (when the device type is `simulator`), then custom capabilities. -/
def mergedIOSCaps (configCaps customCaps : Caps) (deviceName : String)
    (platformVersion : Option String) (selectedDeviceUdid : Option String)
    (deviceType : Option DeviceType) : Caps :=
  Caps.union
    (Caps.union
      (Caps.union
        (Caps.union
          (Caps.union
            (defaultIOSCaps deviceName)
            (optionalStrCap "appium:platformVersion" platformVersion))
          configCaps)
        (optionalStrCap "appium:udid" (truthyStr selectedDeviceUdid)))
      (condCaps (deviceType = some DeviceType.simulator) simStabilityCaps))
    customCaps

/-- `buildIOSCapabilities` (current revision): validate the device selection,
then merge defaults, the auto-detected platform version, config capabilities,
the selected device identifier, the simulator-stability flags and custom
capabilities; remote targets skip every device-selection lookup.  The result
of the merge is wrapped in `Except` (validation may fail); the device-selection
state left behind is returned alongside. -/
def buildIOSCapabilities (configCaps customCaps : Caps) (isRemoteServer : Bool)
    (devicesByType : DeviceType → Nat) (st : DeviceSelection) :
    Except String Caps × DeviceSelection :=
  let deviceType : Option DeviceType :=
    if isRemoteServer then none else st.deviceType
  match validateIOSDeviceSelection deviceType devicesByType st.device with
  | Except.error e => (Except.error e, st)
  | Except.ok _ =>
    let selectedDeviceUdid : Option String :=
      if isRemoteServer then none else st.device
    let selectedDeviceInfo : Option DeviceInfo :=
      if isRemoteServer then none else st.info
    let capabilities :=
      mergedIOSCaps configCaps customCaps
        (resolvedIOSDeviceName selectedDeviceInfo)
        (detectedPlatformVersion selectedDeviceInfo)
        selectedDeviceUdid deviceType
    let st2 :=
      if strTruthy selectedDeviceUdid then { st with device := none } else st
    (Except.ok (filterEmptyCapabilities capabilities), st2)

/-- `buildAndroidCapabilities` of the older revision (src/unnamed/part_000):
identical to the current one except that it takes no remote flag and always
consults the device-selection state. -/
def buildAndroidCapabilitiesOld (configCaps customCaps : Caps)
    (st : DeviceSelection) : Caps × DeviceSelection :=
  let selectedDeviceUdid : Option String := st.device
  let capabilities := mergedAndroidCaps configCaps customCaps selectedDeviceUdid
  let st2 :=
    if strTruthy selectedDeviceUdid then { st with device := none } else st
  (filterEmptyCapabilities capabilities, st2)

/-- `buildIOSCapabilities` of the older revision (src/unnamed/part_000): no
remote flag, fixed default device name `iPhone Simulator`, otherwise the same
merge chain. -/
def buildIOSCapabilitiesOld (configCaps customCaps : Caps)
    (devicesByType : DeviceType → Nat) (st : DeviceSelection) :
    Except String Caps × DeviceSelection :=
  let deviceType : Option DeviceType := st.deviceType
  match validateIOSDeviceSelection deviceType devicesByType st.device with
  | Except.error e => (Except.error e, st)
  | Except.ok _ =>
    let selectedDeviceUdid : Option String := st.device
    let selectedDeviceInfo : Option DeviceInfo := st.info
    let capabilities :=
      mergedIOSCaps configCaps customCaps "iPhone Simulator"
        (detectedPlatformVersion selectedDeviceInfo)
        selectedDeviceUdid deviceType
    let st2 :=
      if strTruthy selectedDeviceUdid then { st with device := none } else st
    (Except.ok (filterEmptyCapabilities capabilities), st2)

/-- The requested platform of a `create_session` call. -/
inductive Platform where
  | android
  | ios
deriving DecidableEq

/-- The capability config loaded from the optional config file: one partial
capability set per platform (`loadCapabilitiesConfig` degrades every failure
to empty mappings, so the orchestrator always receives a value). -/
structure CapabilitiesConfig where
  android : Caps
  ios : Caps

/-- The phases of one `create_session` invocation, in the order the
orchestrator runs them. -/
inductive Phase where
  | teardownPhase
  | loadConfigPhase
  | buildCapsPhase
  | dispatchPhase
  | registerPhase
deriving DecidableEq

/-- Modelled from the spec: the external collaborators of the orchestrator,
whose code (session-store.js, the config loader, the device manager and the
two transports) is not among the analysed sources — `hasActiveSession`,
`safeDeleteSession` (which may fail; the caller must tolerate),
`loadCapabilitiesConfig` (never fails, degrades to empty mappings), the
device-manager count oracle, and the local and remote session-creation
calls. -/
structure ExecEnv where
  hasActive : Bool
  teardown : Except String Unit
  config : CapabilitiesConfig
  devicesByType : DeviceType → Nat
  localDispatch : Platform → Caps → Except String String
  remoteDispatch : String → Caps → Except String String

/-- The arguments of a `create_session` call in the current revision
(a missing `capabilities` object is modelled by `Caps.empty`, which is what
spreading `undefined` contributes). -/
structure ExecArgs where
  platform : Platform
  capabilities : Caps
  remoteServerUrl : Option String

/-- The arguments of a `create_session` call in the older revision (no
remote-server URL). -/
structure ExecArgsOld where
  platform : Platform
  capabilities : Caps

deriving instance DecidableEq for Except

/-- The observable outcome of one `create_session` invocation: the session id
or the surfaced error, the device-selection state left behind, and the trace
of phases that ran. -/
structure ExecOutcome where
  result : Except String String
  finalState : DeviceSelection
  trace : List Phase
deriving DecidableEq

/-- The `execute` entry point of the current revision
(src/src/tools/session/create-session.ts): tear down any prior session with
the failure swallowed by an inner try/catch, load the config, build the
capabilities for the platform, dispatch to the remote client when a truthy
remote URL is given and to the embedded driver otherwise, and register the
session; every error escaping those later stages is wrapped as
`Failed to create session: ...` by the outer catch. -/
def executeCurrent (env : ExecEnv) (args : ExecArgs) (st : DeviceSelection) :
    ExecOutcome :=
  let t0 : List Phase := if env.hasActive then [Phase.teardownPhase] else []
  let isRemote := strTruthy args.remoteServerUrl
  let platformCaps :=
    match args.platform with
    | Platform.android => env.config.android
    | Platform.ios => env.config.ios
  let built : Except String Caps × DeviceSelection :=
    match args.platform with
    | Platform.android =>
      let r := buildAndroidCapabilities platformCaps args.capabilities isRemote st
      (Except.ok r.1, r.2)
    | Platform.ios =>
      buildIOSCapabilities platformCaps args.capabilities isRemote
        env.devicesByType st
  let t1 := t0 ++ [Phase.loadConfigPhase, Phase.buildCapsPhase]
  match built with
  | (Except.error e, st2) =>
    { result := Except.error ("Failed to create session: " ++ e)
      finalState := st2
      trace := t1 }
  | (Except.ok caps, st2) =>
    let dispatched :=
      match args.remoteServerUrl with
      | some url =>
        if url = "" then env.localDispatch args.platform caps
        else env.remoteDispatch url caps
      | none => env.localDispatch args.platform caps
    match dispatched with
    | Except.error e =>
      { result := Except.error ("Failed to create session: " ++ e)
        finalState := st2
        trace := t1 ++ [Phase.dispatchPhase] }
    | Except.ok sid =>
      { result := Except.ok sid
        finalState := st2
        trace := t1 ++ [Phase.dispatchPhase, Phase.registerPhase] }

/-- The later stages of the older revision's `execute`, after the teardown
block: load config, build capabilities with the older builders, dispatch to
the embedded driver, register. -/
def executeOldRest (env : ExecEnv) (args : ExecArgsOld) (st : DeviceSelection)
    (t0 : List Phase) : ExecOutcome :=
  let platformCaps :=
    match args.platform with
    | Platform.android => env.config.android
    | Platform.ios => env.config.ios
  let built : Except String Caps × DeviceSelection :=
    match args.platform with
    | Platform.android =>
      let r := buildAndroidCapabilitiesOld platformCaps args.capabilities st
      (Except.ok r.1, r.2)
    | Platform.ios =>
      buildIOSCapabilitiesOld platformCaps args.capabilities
        env.devicesByType st
  let t1 := t0 ++ [Phase.loadConfigPhase, Phase.buildCapsPhase]
  match built with
  | (Except.error e, st2) =>
    { result := Except.error ("Failed to create session: " ++ e)
      finalState := st2
      trace := t1 }
  | (Except.ok caps, st2) =>
    match env.localDispatch args.platform caps with
    | Except.error e =>
      { result := Except.error ("Failed to create session: " ++ e)
        finalState := st2
        trace := t1 ++ [Phase.dispatchPhase] }
    | Except.ok sid =>
      { result := Except.ok sid
        finalState := st2
        trace := t1 ++ [Phase.dispatchPhase, Phase.registerPhase] }

/-- The `execute` entry point of the older revision (src/unnamed/part_000):
`await safeDeleteSession()` runs with no inner try/catch, so a teardown
failure propagates to the outer catch, which wraps it as
`Failed to create session: ...` and aborts the attempt. -/
def executeOld (env : ExecEnv) (args : ExecArgsOld) (st : DeviceSelection) :
    ExecOutcome :=
  if env.hasActive then
    match env.teardown with
    | Except.error e =>
      { result := Except.error ("Failed to create session: " ++ e)
        finalState := st
        trace := [Phase.teardownPhase] }
    | Except.ok _ => executeOldRest env args st [Phase.teardownPhase]
  else executeOldRest env args st []

/-! ## Helper lemmas -/

theorem union_apply (a b : Caps) (k : String) :
    Caps.union a b k = match b k with | some v => some v | none => a k := rfl

theorem filterEmpty_apply (c : Caps) (k : String) :
    filterEmptyCapabilities c k =
      match c k with
      | some (CapValue.str s) => if s = "" then none else some (CapValue.str s)
      | some (CapValue.bool b) => some (CapValue.bool b)
      | some (CapValue.int n) => some (CapValue.int n)
      | none => none := rfl

/-- Filtering never changes a key whose value is not the empty string. -/
theorem filterEmpty_eq_of_ne (c : Caps) (k : String)
    (h : c k ≠ some (CapValue.str "")) : filterEmptyCapabilities c k = c k := by
  rw [filterEmpty_apply]
  cases hc : c k with
  | none => rfl
  | some v =>
    cases v with
    | str s =>
      rcases eq_or_ne s "" with hs | hs
      · exact absurd (hs ▸ hc) h
      · simp [hs]
    | bool b => rfl
    | int n => rfl

/-- Filtering removes a key whose value is the empty string. -/
theorem filterEmpty_of_emptyStr (c : Caps) (k : String)
    (h : c k = some (CapValue.str "")) : filterEmptyCapabilities c k = none := by
  rw [filterEmpty_apply, h]
  simp

/-- No key of a filtered capability object maps to the empty string. -/
theorem filterEmpty_ne_emptyStr (c : Caps) (k : String) :
    filterEmptyCapabilities c k ≠ some (CapValue.str "") := by
  rw [filterEmpty_apply]
  cases hc : c k with
  | none => simp
  | some v =>
    cases v with
    | str s =>
      rcases eq_or_ne s "" with hs | hs
      · simp [hs]
      · simp [hs]
    | bool b => simp
    | int n => simp

theorem optionalStrCap_apply_of_ne (key : String) (v : Option String)
    (k : String) (h : k ≠ key) : optionalStrCap key v k = none := by
  unfold optionalStrCap
  cases v with
  | none => rfl
  | some s => simp [h]

theorem condCaps_apply (b : Bool) (c : Caps) (k : String) :
    condCaps b c k = if b then c k else none := rfl

/-- Precedence skeleton of the Android merge at any key other than
`appium:udid`: custom wins, then config, then the defaults. -/
theorem mergedAndroid_apply (configCaps customCaps : Caps)
    (u : Option String) (k : String) (hk : k ≠ "appium:udid") :
    mergedAndroidCaps configCaps customCaps u k =
      match customCaps k with
      | some v => some v
      | none =>
        match configCaps k with
        | some v => some v
        | none => defaultAndroidCaps k := by
  unfold mergedAndroidCaps
  rw [union_apply]
  cases hcu : customCaps k with
  | some v => rfl
  | none =>
    rw [union_apply, optionalStrCap_apply_of_ne _ _ _ hk, union_apply]

/-- Custom capabilities always win in the Android merge. -/
theorem mergedAndroid_apply_custom (configCaps customCaps : Caps)
    (u : Option String) (k : String) (v : CapValue)
    (h : customCaps k = some v) :
    mergedAndroidCaps configCaps customCaps u k = some v := by
  unfold mergedAndroidCaps
  rw [union_apply, h]

/-- Precedence skeleton of the iOS merge at any key other than
`appium:platformVersion`, `appium:udid` and the simulator-stability keys:
custom wins, then config, then the defaults. -/
theorem mergedIOS_apply (configCaps customCaps : Caps) (deviceName : String)
    (pv : Option String) (u : Option String) (dt : Option DeviceType)
    (k : String) (hk1 : k ≠ "appium:platformVersion") (hk2 : k ≠ "appium:udid")
    (hk3 : simStabilityCaps k = none) :
    mergedIOSCaps configCaps customCaps deviceName pv u dt k =
      match customCaps k with
      | some v => some v
      | none =>
        match configCaps k with
        | some v => some v
        | none => defaultIOSCaps deviceName k := by
  unfold mergedIOSCaps
  rw [union_apply]
  cases hcu : customCaps k with
  | some v => rfl
  | none =>
    rw [union_apply, condCaps_apply, hk3]
    have hsim : (if decide (dt = some DeviceType.simulator) then (none : Option CapValue) else none) = none := by
      cases decide (dt = some DeviceType.simulator) <;> rfl
    rw [hsim]
    rw [union_apply, optionalStrCap_apply_of_ne _ _ _ hk2, union_apply]
    cases hcf : configCaps k with
    | some v => rfl
    | none =>
      rw [union_apply, optionalStrCap_apply_of_ne _ _ _ hk1]

/-- Custom capabilities always win in the iOS merge. -/
theorem mergedIOS_apply_custom (configCaps customCaps : Caps)
    (deviceName : String) (pv : Option String) (u : Option String)
    (dt : Option DeviceType) (k : String) (v : CapValue)
    (h : customCaps k = some v) :
    mergedIOSCaps configCaps customCaps deviceName pv u dt k = some v := by
  unfold mergedIOSCaps
  rw [union_apply, h]

/-- The two components of an Android build, written without lets. -/
theorem buildAndroid_eq (configCaps customCaps : Caps) (r : Bool)
    (st : DeviceSelection) :
    buildAndroidCapabilities configCaps customCaps r st =
      (filterEmptyCapabilities
          (mergedAndroidCaps configCaps customCaps (if r then none else st.device)),
        if strTruthy (if r then none else st.device) then { st with device := none }
        else st) := rfl

/-- An iOS build whose validation fails returns the error and leaves the
state untouched. -/
theorem buildIOS_eq_of_error (configCaps customCaps : Caps) (r : Bool)
    (devicesByType : DeviceType → Nat) (st : DeviceSelection) (e : String)
    (h : validateIOSDeviceSelection (if r then none else st.deviceType)
      devicesByType st.device = Except.error e) :
    buildIOSCapabilities configCaps customCaps r devicesByType st =
      (Except.error e, st) := by
  simp only [buildIOSCapabilities]
  rw [h]

/-- An iOS build whose validation succeeds: the filtered merge and the
cleared-or-untouched state, written without lets. -/
theorem buildIOS_eq_of_ok (configCaps customCaps : Caps) (r : Bool)
    (devicesByType : DeviceType → Nat) (st : DeviceSelection)
    (h : validateIOSDeviceSelection (if r then none else st.deviceType)
      devicesByType st.device = Except.ok ()) :
    buildIOSCapabilities configCaps customCaps r devicesByType st =
      (Except.ok (filterEmptyCapabilities
          (mergedIOSCaps configCaps customCaps
            (resolvedIOSDeviceName (if r then none else st.info))
            (detectedPlatformVersion (if r then none else st.info))
            (if r then none else st.device)
            (if r then none else st.deviceType))),
        if strTruthy (if r then none else st.device) then { st with device := none }
        else st) := by
  simp only [buildIOSCapabilities]
  rw [h]

/-- Validation never fails when a device is selected (truthy identifier). -/
theorem validate_ok_of_truthy (dt : Option DeviceType)
    (devicesByType : DeviceType → Nat) (sel : Option String)
    (h : strTruthy sel = true) :
    validateIOSDeviceSelection dt devicesByType sel = Except.ok () := by
  unfold validateIOSDeviceSelection
  cases dt with
  | none => rfl
  | some t =>
    by_cases h1 : devicesByType t > 1
    · simp [h1, h]
    · simp [h1]

/-- Validation never fails when at most one device of the type exists. -/
theorem validate_ok_of_le_one (dt : Option DeviceType)
    (devicesByType : DeviceType → Nat) (sel : Option String)
    (h : ∀ t, devicesByType t ≤ 1) :
    validateIOSDeviceSelection dt devicesByType sel = Except.ok () := by
  unfold validateIOSDeviceSelection
  cases dt with
  | none => rfl
  | some t =>
    have h1 : ¬ devicesByType t > 1 := by
      have := h t
      omega
    simp [h1]

/-! ## Concrete inputs used by witnesses and counterexamples -/

/-- The device-selection state of the C5 scenario: a selected simulator with
info `{name: "iPhone 15", platform: "17.0"}`. -/
def iphone15Selection (u : String) : DeviceSelection :=
  ⟨some u, some DeviceType.simulator, some ⟨some "iPhone 15", some "17.0"⟩⟩

/-- An ambiguous iOS state: a simulator type is selected as the device type
but no device identifier is selected. -/
def ambiguousSelection : DeviceSelection := ⟨none, some DeviceType.simulator, none⟩

/-- An environment with an active prior session whose teardown fails. -/
def envFailingTeardown : ExecEnv :=
  { hasActive := true
    teardown := Except.error "boom"
    config := ⟨Caps.empty, Caps.empty⟩
    devicesByType := fun _ => 1
    localDispatch := fun _ _ => Except.ok "sid-local"
    remoteDispatch := fun _ _ => Except.ok "sid-remote" }

/-! ## Claim theorems -/

/-- C10: the older `buildAndroidCapabilities` (which takes no remote flag)
returns the same capability set and performs the same clear-or-not of the
device-selection state as the current `buildAndroidCapabilities` invoked with
`isRemoteServer = false`, for every config capability mapping, custom
capability mapping and device-selection state. -/
theorem c10_old_android_equals_current (configCaps customCaps : Caps)
    (st : DeviceSelection) :
    buildAndroidCapabilitiesOld configCaps customCaps st =
      buildAndroidCapabilities configCaps customCaps false st := rfl

/-- C3: for every non-absent device type, `validateIOSDeviceSelection`
succeeds whenever the device manager reports exactly one device of that type,
even with no device selected; whenever it reports two or more and no device
is selected, it fails with the ambiguous-selection message carrying the exact
device count; when the device type is absent it succeeds for every device
manager and selection (no query is consulted). -/
theorem c3_validation_rules (devicesByType : DeviceType → Nat)
    (sel : Option String) (t : DeviceType) :
    validateIOSDeviceSelection none devicesByType sel = Except.ok () ∧
    (devicesByType t = 1 →
      validateIOSDeviceSelection (some t) devicesByType sel = Except.ok ()) ∧
    (2 ≤ devicesByType t → strTruthy sel = false →
      validateIOSDeviceSelection (some t) devicesByType sel =
        Except.error ("Multiple iOS " ++ deviceWord t ++ " found (" ++
          Nat.repr (devicesByType t) ++
          "). Please use the select_device tool to choose which device to use before creating a session.")) := by
  refine ⟨rfl, ?_, ?_⟩
  · intro h1
    have hn : ¬ devicesByType t > 1 := by omega
    unfold validateIOSDeviceSelection
    simp [hn]
  · intro h2 hsel
    have hgt : devicesByType t > 1 := by omega
    unfold validateIOSDeviceSelection
    simp [hgt, hsel, ambiguousSelectionMessage]

/-- C3 witness: with three simulators and no selection, validation fails with
the message naming the count three; with exactly one device of each type it
succeeds without a selection; with an absent type it succeeds. -/
theorem c3_validation_rules_witness :
    validateIOSDeviceSelection none (fun _ => 3) none = Except.ok () ∧
    validateIOSDeviceSelection (some DeviceType.simulator) (fun _ => 1) none =
      Except.ok () ∧
    validateIOSDeviceSelection (some DeviceType.simulator) (fun _ => 3) none =
      Except.error ("Multiple iOS " ++ deviceWord DeviceType.simulator ++
        " found (" ++ Nat.repr 3 ++
        "). Please use the select_device tool to choose which device to use before creating a session.") :=
  ⟨(c3_validation_rules (fun _ => 3) none DeviceType.simulator).1,
    (c3_validation_rules (fun _ => 1) none DeviceType.simulator).2.1 rfl,
    (c3_validation_rules (fun _ => 3) none DeviceType.simulator).2.2
      (by decide) rfl⟩

/-- C9: whenever `buildIOSCapabilities` terminates with the
ambiguous-selection error, the device-selection state is unchanged (the
selected identifier is not cleared). -/
theorem c9_error_preserves_state (configCaps customCaps : Caps) (r : Bool)
    (devicesByType : DeviceType → Nat) (st : DeviceSelection) (e : String)
    (h : (buildIOSCapabilities configCaps customCaps r devicesByType st).1 =
      Except.error e) :
    (buildIOSCapabilities configCaps customCaps r devicesByType st).2 = st := by
  cases hv : validateIOSDeviceSelection (if r then none else st.deviceType)
      devicesByType st.device with
  | error e2 =>
    rw [buildIOS_eq_of_error configCaps customCaps r devicesByType st e2 hv]
  | ok u =>
    rw [buildIOS_eq_of_ok configCaps customCaps r devicesByType st hv] at h
    exact absurd h (by simp)

/-- C9 witness: two simulators, simulator type selected, no device selected —
the build fails and the state is returned untouched. -/
theorem c9_error_preserves_state_witness :
    (buildIOSCapabilities Caps.empty Caps.empty false (fun _ => 2)
      ambiguousSelection).2 = ambiguousSelection :=
  c9_error_preserves_state Caps.empty Caps.empty false (fun _ => 2)
    ambiguousSelection
    (ambiguousSelectionMessage DeviceType.simulator 2) rfl

/-- C5: for platform ios with empty config and custom capabilities, a selected
simulator with info `{name: "iPhone 15", platform: "17.0"}` and a truthy udid,
non-remote, the build succeeds and the result carries the device name, the
auto-detected platform version, the selected udid and the simulator-stability
values (retries 4, interval 20000 ms, prebuilt agent flag). -/
theorem c5_ios_simulator_scenario (u : String) (hu : u ≠ "")
    (devicesByType : DeviceType → Nat) :
    ∃ caps,
      (buildIOSCapabilities Caps.empty Caps.empty false devicesByType
        (iphone15Selection u)).1 = Except.ok caps ∧
      caps "appium:deviceName" = some (CapValue.str "iPhone 15") ∧
      caps "appium:platformVersion" = some (CapValue.str "17.0") ∧
      caps "appium:udid" = some (CapValue.str u) ∧
      caps "appium:usePrebuiltWDA" = some (CapValue.bool true) ∧
      caps "appium:wdaStartupRetries" = some (CapValue.int 4) ∧
      caps "appium:wdaStartupRetryInterval" = some (CapValue.int 20000) := by
  have hu3 : strTruthy (some u) = true := by simp [strTruthy, hu]
  have hv : validateIOSDeviceSelection
      (if false then none else (iphone15Selection u).deviceType) devicesByType
      (iphone15Selection u).device = Except.ok () :=
    validate_ok_of_truthy _ _ _ hu3
  rw [buildIOS_eq_of_ok _ _ _ _ _ hv]
  refine ⟨_, rfl, ?_, ?_, ?_, ?_, ?_, ?_⟩ <;>
    simp [mergedIOSCaps, Caps.union, Caps.empty, condCaps, simStabilityCaps,
      optionalStrCap, defaultIOSCaps, filterEmptyCapabilities,
      resolvedIOSDeviceName, detectedPlatformVersion, truthyStr, strTruthy,
      jsTrim, iphone15Selection, hu]

/-- C5 witness: the scenario at the concrete udid `UDID-1` with one simulator
reported. -/
theorem c5_ios_simulator_scenario_witness :
    ∃ caps,
      (buildIOSCapabilities Caps.empty Caps.empty false (fun _ => 1)
        (iphone15Selection "UDID-1")).1 = Except.ok caps ∧
      caps "appium:deviceName" = some (CapValue.str "iPhone 15") ∧
      caps "appium:platformVersion" = some (CapValue.str "17.0") ∧
      caps "appium:udid" = some (CapValue.str "UDID-1") ∧
      caps "appium:usePrebuiltWDA" = some (CapValue.bool true) ∧
      caps "appium:wdaStartupRetries" = some (CapValue.int 4) ∧
      caps "appium:wdaStartupRetryInterval" = some (CapValue.int 20000) :=
  c5_ios_simulator_scenario "UDID-1" (by decide) (fun _ => 1)

/-- C6: no key of a built capability set maps to the empty string, for either
builder and any input combination; post-merge filtering removes exactly the
empty-string-valued keys and keeps every other key with its value
unchanged. -/
theorem c6_no_empty_string_values (configCaps customCaps : Caps) (r : Bool)
    (devicesByType : DeviceType → Nat) (st : DeviceSelection) (c : Caps)
    (k : String) :
    (buildAndroidCapabilities configCaps customCaps r st).1 k ≠
      some (CapValue.str "") ∧
    (∀ caps st2,
      buildIOSCapabilities configCaps customCaps r devicesByType st =
        (Except.ok caps, st2) →
      caps k ≠ some (CapValue.str "")) ∧
    (c k = some (CapValue.str "") → filterEmptyCapabilities c k = none) ∧
    (∀ v, c k = some v → v ≠ CapValue.str "" →
      filterEmptyCapabilities c k = some v) := by
  refine ⟨filterEmpty_ne_emptyStr _ _, ?_, filterEmpty_of_emptyStr c k, ?_⟩
  · intro caps st2 h
    cases hv : validateIOSDeviceSelection (if r then none else st.deviceType)
        devicesByType st.device with
    | error e =>
      rw [buildIOS_eq_of_error _ _ _ _ _ _ hv] at h
      injection h with h1 h2
      exact absurd h1 (by simp)
    | ok u2 =>
      rw [buildIOS_eq_of_ok _ _ _ _ _ hv] at h
      injection h with h1 h2
      injection h1 with h1
      rw [← h1]
      exact filterEmpty_ne_emptyStr _ _
  · intro v hvk hne
    have hne2 : c k ≠ some (CapValue.str "") := by
      rw [hvk]
      exact fun hc => hne (Option.some.inj hc)
    rw [filterEmpty_eq_of_ne c k hne2, hvk]

/-- C6 witness: the Android build never yields an empty-string value at
`platformName`; filtering drops a key holding the empty string and keeps a
key holding a boolean. -/
theorem c6_no_empty_string_values_witness :
    (buildAndroidCapabilities Caps.empty Caps.empty false emptySelection).1
      "platformName" ≠ some (CapValue.str "") ∧
    filterEmptyCapabilities (singletonCap "appium:app" (CapValue.str ""))
      "appium:app" = none ∧
    filterEmptyCapabilities (singletonCap "appium:app" (CapValue.bool true))
      "appium:app" = some (CapValue.bool true) :=
  ⟨(c6_no_empty_string_values Caps.empty Caps.empty false (fun _ => 1)
      emptySelection (singletonCap "appium:app" (CapValue.str ""))
      "platformName").1,
    (c6_no_empty_string_values Caps.empty Caps.empty false (fun _ => 1)
      emptySelection (singletonCap "appium:app" (CapValue.str ""))
      "appium:app").2.2.1 (by decide),
    (c6_no_empty_string_values Caps.empty Caps.empty false (fun _ => 1)
      emptySelection (singletonCap "appium:app" (CapValue.bool true))
      "appium:app").2.2.2 (CapValue.bool true) (by decide) (by decide)⟩

/-- C8: each builder clears the selected device identifier exactly when it
consumed one (non-remote and truthy identifier), and leaves the
device-selection state unchanged otherwise (remote target, or no truthy
identifier selected). -/
theorem c8_clear_exactly_when_consumed (configCaps customCaps : Caps)
    (r : Bool) (devicesByType : DeviceType → Nat) (st : DeviceSelection) :
    (r = false → strTruthy st.device = true →
      (buildAndroidCapabilities configCaps customCaps r st).2 =
        { st with device := none } ∧
      (buildIOSCapabilities configCaps customCaps r devicesByType st).2 =
        { st with device := none }) ∧
    (r = true ∨ strTruthy st.device = false →
      (buildAndroidCapabilities configCaps customCaps r st).2 = st ∧
      (buildIOSCapabilities configCaps customCaps r devicesByType st).2 = st) := by
  constructor
  · rintro rfl htr
    have hv : validateIOSDeviceSelection
        (if false then none else st.deviceType) devicesByType st.device =
        Except.ok () := validate_ok_of_truthy _ _ _ htr
    constructor
    · rw [buildAndroid_eq]
      simp [htr]
    · rw [buildIOS_eq_of_ok _ _ _ _ _ hv]
      simp [htr]
  · intro hor
    have hfalse : strTruthy (if r then none else st.device) = false := by
      rcases hor with hr | hs
      · subst hr
        rfl
      · cases r with
        | true => rfl
        | false => simpa using hs
    constructor
    · rw [buildAndroid_eq, hfalse]
      simp
    · cases hv : validateIOSDeviceSelection (if r then none else st.deviceType)
          devicesByType st.device with
      | error e =>
        rw [buildIOS_eq_of_error _ _ _ _ _ _ hv]
      | ok u2 =>
        rw [buildIOS_eq_of_ok _ _ _ _ _ hv, hfalse]
        simp

/-- C8 witness: with a truthy selected identifier and a non-remote target,
both builds return the state with the identifier cleared. -/
theorem c8_clear_exactly_when_consumed_witness :
    (buildAndroidCapabilities Caps.empty Caps.empty false
      (iphone15Selection "UDID-1")).2 =
      { iphone15Selection "UDID-1" with device := none } ∧
    (buildIOSCapabilities Caps.empty Caps.empty false (fun _ => 1)
      (iphone15Selection "UDID-1")).2 =
      { iphone15Selection "UDID-1" with device := none } :=
  (c8_clear_exactly_when_consumed Caps.empty Caps.empty false (fun _ => 1)
    (iphone15Selection "UDID-1")).1 rfl (by decide)

/-- A remote iOS build always succeeds, ignores the device-selection state and
the device manager in its capability set, and leaves the state untouched. -/
theorem buildIOS_remote (configCaps customCaps : Caps)
    (devicesByType : DeviceType → Nat) (st : DeviceSelection) :
    buildIOSCapabilities configCaps customCaps true devicesByType st =
      (Except.ok (filterEmptyCapabilities
        (mergedIOSCaps configCaps customCaps "iPhone Simulator" none none none)),
        st) := by
  have hv : validateIOSDeviceSelection (if true then none else st.deviceType)
      devicesByType st.device = Except.ok () := rfl
  rw [buildIOS_eq_of_ok _ _ _ _ _ hv]
  rfl

/-- The keys that a remote target suppresses: the device identifier, the three
simulator-stability keys, and the auto-detected platform version. -/
def remoteSuppressedKeys : List String :=
  ["appium:udid", "appium:usePrebuiltWDA", "appium:wdaStartupRetries",
    "appium:wdaStartupRetryInterval", "appium:platformVersion"]

/-- C2: with a remote target, neither builder emits the device-identifier key,
the simulator-stability keys or an auto-detected platform version (provided
the config and custom capabilities do not themselves supply those keys), for
every device-selection state; moreover the remote iOS capability set is
independent of the device-selection state and of the device manager. -/
theorem c2_remote_suppression (configCaps customCaps : Caps)
    (devicesByType devicesByType2 : DeviceType → Nat) (st st2 : DeviceSelection)
    (h : ∀ k ∈ remoteSuppressedKeys, configCaps k = none ∧ customCaps k = none) :
    (buildAndroidCapabilities configCaps customCaps true st).1 "appium:udid" =
      none ∧
    (∃ caps,
      (buildIOSCapabilities configCaps customCaps true devicesByType st).1 =
        Except.ok caps ∧
      ∀ k ∈ remoteSuppressedKeys, caps k = none) ∧
    (buildIOSCapabilities configCaps customCaps true devicesByType st).1 =
      (buildIOSCapabilities configCaps customCaps true devicesByType2 st2).1 := by
  refine ⟨?_, ?_, ?_⟩
  · have h1 := (h "appium:udid" (by decide)).1
    have h2 := (h "appium:udid" (by decide)).2
    show filterEmptyCapabilities
      (mergedAndroidCaps configCaps customCaps
        (if true then none else st.device)) "appium:udid" = none
    have hm : mergedAndroidCaps configCaps customCaps
        (if true then none else st.device) "appium:udid" = none := by
      simp [mergedAndroidCaps, Caps.union, optionalStrCap, truthyStr,
        defaultAndroidCaps, h1, h2]
    rw [filterEmpty_apply, hm]
  · rw [buildIOS_remote]
    refine ⟨_, rfl, ?_⟩
    intro k hk
    have h1 := (h k hk).1
    have h2 := (h k hk).2
    have hm : mergedIOSCaps configCaps customCaps "iPhone Simulator"
        none none none k = none := by
      fin_cases hk <;>
        simp_all [mergedIOSCaps, Caps.union, optionalStrCap, condCaps,
          defaultIOSCaps, truthyStr]
    rw [filterEmpty_apply, hm]
  · rw [buildIOS_remote, buildIOS_remote]

/-- C2 witness: with empty config and custom capabilities, a remote Android
build at a state with a selected device has no udid key; the remote iOS build
succeeds with all five suppressed keys absent and equals the build under a
different device manager and state. -/
theorem c2_remote_suppression_witness :
    (buildAndroidCapabilities Caps.empty Caps.empty true
      (iphone15Selection "UDID-1")).1 "appium:udid" = none ∧
    (∃ caps,
      (buildIOSCapabilities Caps.empty Caps.empty true (fun _ => 1)
        (iphone15Selection "UDID-1")).1 = Except.ok caps ∧
      ∀ k ∈ remoteSuppressedKeys, caps k = none) ∧
    (buildIOSCapabilities Caps.empty Caps.empty true (fun _ => 1)
      (iphone15Selection "UDID-1")).1 =
      (buildIOSCapabilities Caps.empty Caps.empty true (fun _ => 5)
        emptySelection).1 :=
  c2_remote_suppression Caps.empty Caps.empty (fun _ => 1) (fun _ => 5)
    (iphone15Selection "UDID-1") emptySelection (by decide)

/-- C1 counterexample: a config-file capability mapping that supplies
`platformName` overrides the fixed platform default even though the custom
capabilities supply nothing, so the final set does not carry the platform
default. -/
theorem c1_counterexample :
    (buildAndroidCapabilities (singletonCap "platformName" (CapValue.str "Windows"))
      Caps.empty false emptySelection).1 "platformName" =
      some (CapValue.str "Windows") ∧
    Caps.empty "platformName" = none ∧
    some (CapValue.str "Windows") ≠ some (CapValue.str "Android") := by
  decide

/-- C1 (amended): the platform-name and automation-engine keys equal the fixed
platform defaults unless the config-file capabilities or the custom
capabilities supply those keys, and every custom capability with a non-empty
value appears in the result with exactly the custom value. -/
theorem c1_defaults_and_custom_override (configCaps customCaps : Caps)
    (r : Bool) (devicesByType : DeviceType → Nat) (st : DeviceSelection) :
    (configCaps "platformName" = none → customCaps "platformName" = none →
      (buildAndroidCapabilities configCaps customCaps r st).1 "platformName" =
        some (CapValue.str "Android")) ∧
    (configCaps "appium:automationName" = none →
      customCaps "appium:automationName" = none →
      (buildAndroidCapabilities configCaps customCaps r st).1
        "appium:automationName" = some (CapValue.str "UiAutomator2")) ∧
    (∀ caps st2,
      buildIOSCapabilities configCaps customCaps r devicesByType st =
        (Except.ok caps, st2) →
      (configCaps "platformName" = none → customCaps "platformName" = none →
        caps "platformName" = some (CapValue.str "iOS")) ∧
      (configCaps "appium:automationName" = none →
        customCaps "appium:automationName" = none →
        caps "appium:automationName" = some (CapValue.str "XCUITest"))) ∧
    (∀ k v, customCaps k = some v → v ≠ CapValue.str "" →
      (buildAndroidCapabilities configCaps customCaps r st).1 k = some v ∧
      (∀ caps st2,
        buildIOSCapabilities configCaps customCaps r devicesByType st =
          (Except.ok caps, st2) →
        caps k = some v)) := by
  refine ⟨?_, ?_, ?_, ?_⟩
  · intro h1 h2
    have hm : mergedAndroidCaps configCaps customCaps
        (if r then none else st.device) "platformName" =
        some (CapValue.str "Android") := by
      rw [mergedAndroid_apply _ _ _ _ (by decide), h2, h1]
      rfl
    show filterEmptyCapabilities (mergedAndroidCaps configCaps customCaps
      (if r then none else st.device)) "platformName" = _
    rw [filterEmpty_eq_of_ne _ _ (by rw [hm]; decide), hm]
  · intro h1 h2
    have hm : mergedAndroidCaps configCaps customCaps
        (if r then none else st.device) "appium:automationName" =
        some (CapValue.str "UiAutomator2") := by
      rw [mergedAndroid_apply _ _ _ _ (by decide), h2, h1]
      rfl
    show filterEmptyCapabilities (mergedAndroidCaps configCaps customCaps
      (if r then none else st.device)) "appium:automationName" = _
    rw [filterEmpty_eq_of_ne _ _ (by rw [hm]; decide), hm]
  · intro caps st2 hb
    cases hv : validateIOSDeviceSelection (if r then none else st.deviceType)
        devicesByType st.device with
    | error e =>
      rw [buildIOS_eq_of_error _ _ _ _ _ _ hv] at hb
      injection hb with hb1 hb2
      exact absurd hb1 (by simp)
    | ok u2 =>
      rw [buildIOS_eq_of_ok _ _ _ _ _ hv] at hb
      injection hb with hb1 hb2
      injection hb1 with hb1
      constructor
      · intro h1 h2
        have hm : mergedIOSCaps configCaps customCaps
            (resolvedIOSDeviceName (if r then none else st.info))
            (detectedPlatformVersion (if r then none else st.info))
            (if r then none else st.device)
            (if r then none else st.deviceType) "platformName" =
            some (CapValue.str "iOS") := by
          rw [mergedIOS_apply _ _ _ _ _ _ _ (by decide) (by decide) (by decide),
            h2, h1]
          rfl
        rw [← hb1, filterEmpty_eq_of_ne _ _ (by rw [hm]; decide), hm]
      · intro h1 h2
        have hm : mergedIOSCaps configCaps customCaps
            (resolvedIOSDeviceName (if r then none else st.info))
            (detectedPlatformVersion (if r then none else st.info))
            (if r then none else st.device)
            (if r then none else st.deviceType) "appium:automationName" =
            some (CapValue.str "XCUITest") := by
          rw [mergedIOS_apply _ _ _ _ _ _ _ (by decide) (by decide) (by decide),
            h2, h1]
          rfl
        rw [← hb1, filterEmpty_eq_of_ne _ _ (by rw [hm]; decide), hm]
  · intro k v hcv hne
    have hne2 : ∀ c : Caps, c k = some v → c k ≠ some (CapValue.str "") := by
      intro c hc he
      rw [hc] at he
      exact hne (Option.some.inj he)
    constructor
    · have hm : mergedAndroidCaps configCaps customCaps
          (if r then none else st.device) k = some v :=
        mergedAndroid_apply_custom _ _ _ _ _ hcv
      show filterEmptyCapabilities (mergedAndroidCaps configCaps customCaps
        (if r then none else st.device)) k = _
      rw [filterEmpty_eq_of_ne _ _ (hne2 _ hm), hm]
    · intro caps st2 hb
      cases hv : validateIOSDeviceSelection (if r then none else st.deviceType)
          devicesByType st.device with
      | error e =>
        rw [buildIOS_eq_of_error _ _ _ _ _ _ hv] at hb
        injection hb with hb1 hb2
        exact absurd hb1 (by simp)
      | ok u2 =>
        rw [buildIOS_eq_of_ok _ _ _ _ _ hv] at hb
        injection hb with hb1 hb2
        injection hb1 with hb1
        have hm : mergedIOSCaps configCaps customCaps
            (resolvedIOSDeviceName (if r then none else st.info))
            (detectedPlatformVersion (if r then none else st.info))
            (if r then none else st.device)
            (if r then none else st.deviceType) k = some v :=
          mergedIOS_apply_custom _ _ _ _ _ _ _ _ hcv
        rw [← hb1, filterEmpty_eq_of_ne _ _ (hne2 _ hm), hm]

/-- C1 witness: with empty config and a custom capability at `appium:app`,
the Android defaults survive at `platformName` and the custom value appears
verbatim. -/
theorem c1_defaults_and_custom_override_witness :
    (buildAndroidCapabilities Caps.empty
      (singletonCap "appium:app" (CapValue.str "MyApp")) false
      emptySelection).1 "platformName" = some (CapValue.str "Android") ∧
    (buildAndroidCapabilities Caps.empty
      (singletonCap "appium:app" (CapValue.str "MyApp")) false
      emptySelection).1 "appium:app" = some (CapValue.str "MyApp") :=
  ⟨(c1_defaults_and_custom_override Caps.empty
      (singletonCap "appium:app" (CapValue.str "MyApp")) false (fun _ => 1)
      emptySelection).1 rfl (by decide),
    ((c1_defaults_and_custom_override Caps.empty
      (singletonCap "appium:app" (CapValue.str "MyApp")) false (fun _ => 1)
      emptySelection).2.2.2 "appium:app" (CapValue.str "MyApp") (by decide)
      (by decide)).1⟩

/-- A key whose merged value is present and not the empty string survives the
post-merge filter. -/
theorem merged_lookup_isSome (c : Caps) (k : String) (w : CapValue)
    (hc : c k = some w) (hw : w ≠ CapValue.str "") :
    (filterEmptyCapabilities c k).isSome := by
  rw [filterEmpty_eq_of_ne c k
    (by rw [hc]; exact fun he => hw (Option.some.inj he)), hc]
  rfl

/-- In the Android merge, a key outside the udid layer whose default is
present and non-empty and whose config and custom values are not the empty
string resolves to some non-empty value. -/
theorem precedence_some_android (configCaps customCaps : Caps)
    (u : Option String) (k : String) (hk : k ≠ "appium:udid") (d : CapValue)
    (hd : defaultAndroidCaps k = some d) (hdne : d ≠ CapValue.str "")
    (hc1 : configCaps k ≠ some (CapValue.str ""))
    (hc2 : customCaps k ≠ some (CapValue.str "")) :
    ∃ w, mergedAndroidCaps configCaps customCaps u k = some w ∧
      w ≠ CapValue.str "" := by
  rw [mergedAndroid_apply _ _ _ _ hk]
  cases hcu : customCaps k with
  | some v => exact ⟨v, rfl, fun he => hc2 (by rw [hcu, he])⟩
  | none =>
    cases hcf : configCaps k with
    | some v => exact ⟨v, rfl, fun he => hc1 (by rw [hcf, he])⟩
    | none => exact ⟨d, hd, hdne⟩

/-- In the iOS merge, a key outside the platform-version, udid and
simulator-stability layers whose default is present and non-empty and whose
config and custom values are not the empty string resolves to some non-empty
value. -/
theorem precedence_some_ios (configCaps customCaps : Caps) (dn : String)
    (pv : Option String) (u : Option String) (dt : Option DeviceType)
    (k : String) (hk1 : k ≠ "appium:platformVersion") (hk2 : k ≠ "appium:udid")
    (hk3 : simStabilityCaps k = none) (d : CapValue)
    (hd : defaultIOSCaps dn k = some d) (hdne : d ≠ CapValue.str "")
    (hc1 : configCaps k ≠ some (CapValue.str ""))
    (hc2 : customCaps k ≠ some (CapValue.str "")) :
    ∃ w, mergedIOSCaps configCaps customCaps dn pv u dt k = some w ∧
      w ≠ CapValue.str "" := by
  rw [mergedIOS_apply _ _ _ _ _ _ _ hk1 hk2 hk3]
  cases hcu : customCaps k with
  | some v => exact ⟨v, rfl, fun he => hc2 (by rw [hcu, he])⟩
  | none =>
    cases hcf : configCaps k with
    | some v => exact ⟨v, rfl, fun he => hc1 (by rw [hcf, he])⟩
    | none => exact ⟨d, hd, hdne⟩

/-- C4 counterexample: a custom capability mapping `platformName` to the empty
string makes the post-merge filter drop the key entirely, so the built set
does not contain `platformName`. -/
theorem c4_counterexample :
    (buildAndroidCapabilities Caps.empty
      (singletonCap "platformName" (CapValue.str "")) false emptySelection).1
      "platformName" = none := by
  decide

/-- C4 (amended): the built capability set contains `platformName` and
`appium:automationName`, each mapped to some value, provided neither the
config capabilities nor the custom capabilities map those keys to the empty
string. -/
theorem c4_keys_present_unless_emptied (configCaps customCaps : Caps)
    (r : Bool) (devicesByType : DeviceType → Nat) (st : DeviceSelection)
    (h1 : configCaps "platformName" ≠ some (CapValue.str ""))
    (h2 : customCaps "platformName" ≠ some (CapValue.str ""))
    (h3 : configCaps "appium:automationName" ≠ some (CapValue.str ""))
    (h4 : customCaps "appium:automationName" ≠ some (CapValue.str "")) :
    ((buildAndroidCapabilities configCaps customCaps r st).1
      "platformName").isSome ∧
    ((buildAndroidCapabilities configCaps customCaps r st).1
      "appium:automationName").isSome ∧
    (∀ caps st2,
      buildIOSCapabilities configCaps customCaps r devicesByType st =
        (Except.ok caps, st2) →
      (caps "platformName").isSome ∧ (caps "appium:automationName").isSome) := by
  refine ⟨?_, ?_, ?_⟩
  · obtain ⟨w, hw1, hw2⟩ := precedence_some_android configCaps customCaps
      (if r then none else st.device) "platformName" (by decide)
      (CapValue.str "Android") rfl (by decide) h1 h2
    exact merged_lookup_isSome _ _ _ hw1 hw2
  · obtain ⟨w, hw1, hw2⟩ := precedence_some_android configCaps customCaps
      (if r then none else st.device) "appium:automationName" (by decide)
      (CapValue.str "UiAutomator2") rfl (by decide) h3 h4
    exact merged_lookup_isSome _ _ _ hw1 hw2
  · intro caps st2 hb
    cases hv : validateIOSDeviceSelection (if r then none else st.deviceType)
        devicesByType st.device with
    | error e =>
      rw [buildIOS_eq_of_error _ _ _ _ _ _ hv] at hb
      injection hb with hb1 hb2
      exact absurd hb1 (by simp)
    | ok u2 =>
      rw [buildIOS_eq_of_ok _ _ _ _ _ hv] at hb
      injection hb with hb1 hb2
      injection hb1 with hb1
      rw [← hb1]
      constructor
      · obtain ⟨w, hw1, hw2⟩ := precedence_some_ios configCaps customCaps
          (resolvedIOSDeviceName (if r then none else st.info))
          (detectedPlatformVersion (if r then none else st.info))
          (if r then none else st.device) (if r then none else st.deviceType)
          "platformName" (by decide) (by decide) (by decide)
          (CapValue.str "iOS") rfl (by decide) h1 h2
        exact merged_lookup_isSome _ _ _ hw1 hw2
      · obtain ⟨w, hw1, hw2⟩ := precedence_some_ios configCaps customCaps
          (resolvedIOSDeviceName (if r then none else st.info))
          (detectedPlatformVersion (if r then none else st.info))
          (if r then none else st.device) (if r then none else st.deviceType)
          "appium:automationName" (by decide) (by decide) (by decide)
          (CapValue.str "XCUITest") rfl (by decide) h3 h4
        exact merged_lookup_isSome _ _ _ hw1 hw2

/-- C4 witness: with empty config and custom capabilities the two keys are
present in the Android build. -/
theorem c4_keys_present_unless_emptied_witness :
    ((buildAndroidCapabilities Caps.empty Caps.empty false emptySelection).1
      "platformName").isSome ∧
    ((buildAndroidCapabilities Caps.empty Caps.empty false emptySelection).1
      "appium:automationName").isSome :=
  ⟨(c4_keys_present_unless_emptied Caps.empty Caps.empty false (fun _ => 1)
      emptySelection (by decide) (by decide) (by decide) (by decide)).1,
    (c4_keys_present_unless_emptied Caps.empty Caps.empty false (fun _ => 1)
      emptySelection (by decide) (by decide) (by decide) (by decide)).2.1⟩

/-- The trace of the current entry point always starts with the optional
teardown phase followed by config loading and capability building. -/
theorem executeCurrent_trace_shape (env : ExecEnv) (args : ExecArgs)
    (st : DeviceSelection) :
    ∃ rest, (executeCurrent env args st).trace =
      (if env.hasActive then [Phase.teardownPhase] else []) ++
        [Phase.loadConfigPhase, Phase.buildCapsPhase] ++ rest := by
  simp only [executeCurrent]
  split
  · exact ⟨[], by simp⟩
  · split
    · exact ⟨[Phase.dispatchPhase], by simp⟩
    · exact ⟨[Phase.dispatchPhase, Phase.registerPhase], by simp⟩

/-- C7 counterexample: in the older revision's entry point a failing teardown
of the prior session surfaces to the caller as a wrapped error and aborts the
attempt before configuration loading. -/
theorem c7_counterexample :
    (executeOld envFailingTeardown ⟨Platform.android, Caps.empty⟩
      emptySelection).result =
      Except.error "Failed to create session: boom" ∧
    (executeOld envFailingTeardown ⟨Platform.android, Caps.empty⟩
      emptySelection).trace = [Phase.teardownPhase] ∧
    Phase.loadConfigPhase ∉
      (executeOld envFailingTeardown ⟨Platform.android, Caps.empty⟩
        emptySelection).trace := by
  decide

/-- C7 (amended): in the current entry point, when an active session exists
and the prior-session teardown fails, the failure is fully swallowed — the
outcome is identical to a run whose teardown succeeds — and the invocation
still reaches configuration loading and capability building. -/
theorem c7_current_swallows_teardown_failure (env : ExecEnv) (args : ExecArgs)
    (st : DeviceSelection) (e : String) (hactive : env.hasActive = true)
    (hfail : env.teardown = Except.error e) :
    executeCurrent env args st =
      executeCurrent { env with teardown := Except.ok () } args st ∧
    Phase.loadConfigPhase ∈ (executeCurrent env args st).trace ∧
    Phase.buildCapsPhase ∈ (executeCurrent env args st).trace := by
  obtain ⟨rest, hr⟩ := executeCurrent_trace_shape env args st
  refine ⟨rfl, ?_, ?_⟩ <;> rw [hr] <;> simp

/-- C7 witness: the environment with a failing teardown, run on the current
entry point at a concrete call. -/
theorem c7_current_swallows_teardown_failure_witness :
    executeCurrent envFailingTeardown ⟨Platform.android, Caps.empty, none⟩
      emptySelection =
      executeCurrent { envFailingTeardown with teardown := Except.ok () }
        ⟨Platform.android, Caps.empty, none⟩ emptySelection ∧
    Phase.loadConfigPhase ∈
      (executeCurrent envFailingTeardown ⟨Platform.android, Caps.empty, none⟩
        emptySelection).trace ∧
    Phase.buildCapsPhase ∈
      (executeCurrent envFailingTeardown ⟨Platform.android, Caps.empty, none⟩
        emptySelection).trace :=
  c7_current_swallows_teardown_failure envFailingTeardown
    ⟨Platform.android, Caps.empty, none⟩ emptySelection "boom" rfl rfl
